import Mathlib

set_option maxRecDepth 40000

/-
Shallow embedding of the query-form validator in
src/scribe_data/check/check_query_forms.py.

Strings from the Python code are modelled as `String` / `List Char`.
Python regular-expression searches are embedded as character-list scanners
that implement the exact leftmost / greedy / lazy semantics of the concrete
patterns appearing in the source.  Character classes (\s, \w, \d) are
modelled by their ASCII fragments.  Python functions that can raise an
exception on malformed input are embedded with `Option` / `PyResult`,
where `none` / `.exn` marks the raised exception.
-/

namespace CheckQueryForms

/-- ASCII fragment of Python's whitespace class `\s` (also used by `str.strip`). -/
def isPySpace (c : Char) : Bool :=
  c = ' ' || c = '\t' || c = '\n' || c = '\r' || c = '\x0b' || c = '\x0c'

/-- ASCII fragment of Python's word-character class `\w`. -/
def isWordChar (c : Char) : Bool :=
  c.isAlpha || c.isDigit || c = '_'

/-- Python `str.strip()`: drop leading and trailing whitespace. -/
def pyStrip (l : List Char) : List Char :=
  ((l.dropWhile isPySpace).reverse.dropWhile isPySpace).reverse

/-- Python `s[:1].lower() + s[1:]` (line 229 of the source): lower-case only
the first character. -/
def lower_first (s : String) : String :=
  match s.data with
  | [] => ""
  | c :: rest => String.mk (c.toLower :: rest)

/-- Python substring containment (`sub in s`). -/
def containsSub (sub : List Char) : List Char → Bool
  | [] => decide (sub = [])
  | l@(_ :: rest) => sub.isPrefixOf l || containsSub sub rest

/-- Split a list at the first occurrence of the (non-empty) separator `sep`:
returns the part before it and the part after it. -/
def splitFirst (sep : List Char) : List Char → Option (List Char × List Char)
  | [] => none
  | l@(c :: rest) =>
    if sep.isPrefixOf l ∧ sep ≠ [] then some ([], l.drop sep.length)
    else
      match splitFirst sep rest with
      | some (a, b) => some (c :: a, b)
      | none => none

/-- Python `str.split(sep)` for a non-empty separator, with a fuel argument
for structural recursion: every recursive call strictly shortens the text, so
the initial fuel `l.length` is never exhausted. -/
def pySplitFuel (sep : List Char) : Nat → List Char → List (List Char)
  | 0, l => [l]
  | fuel + 1, l =>
    match splitFirst sep l with
    | none => [l]
    | some (a, b) => a :: pySplitFuel sep fuel b

/-- Python `str.split(sep)` for a non-empty separator. -/
def pySplit (sep : List Char) (l : List Char) : List (List Char) :=
  pySplitFuel sep l.length l

/-- Python `str.split(sep)[0]`: the part before the first occurrence of `sep`
(the whole string when `sep` is absent). -/
def before_first (sep l : List Char) : List Char :=
  match splitFirst sep l with
  | none => l
  | some (a, _) => a

/-- The prefix of `l` extending through the last occurrence of `term` in `l`
(`none` when `term` does not occur).  This is how a greedy `.*` followed by a
literal terminator selects its extent inside one line. -/
def take_through_last (term : List Char) : List Char → Option (List Char)
  | [] => if term = [] then some [] else none
  | c :: rest =>
    match take_through_last term rest with
    | some p => some (c :: p)
    | none => if term.isPrefixOf (c :: rest) then some term else none

/-- Distinct elements, keeping the first occurrence of each (fuel variant;
the filtered tail is never longer than the tail, so fuel `l.length`
suffices). -/
def dedupFirstFuel : Nat → List String → List String
  | 0, _ => []
  | _, [] => []
  | fuel + 1, a :: rest =>
    a :: dedupFirstFuel fuel (rest.filter (fun x => decide (x ≠ a)))

/-- Distinct elements of `l`, keeping the first occurrence of each.  Used as a
deterministic rendering of Python's (unspecified) `set` iteration order. -/
def dedupFirst (l : List String) : List String :=
  dedupFirstFuel l.length l

/-- Python string comparison: lexicographic in code-point order (on the
character lists, which matches Python `sorted` for strings). -/
def pyStrLe (a b : String) : Prop :=
  a.data ≤ b.data

instance : DecidableRel pyStrLe := by
  unfold pyStrLe
  infer_instance

instance : IsTotal String pyStrLe :=
  ⟨fun a b => le_total a.data b.data⟩

instance : IsTrans String pyStrLe :=
  ⟨fun _ _ _ hab hbc => le_trans hab hbc⟩

/-- Python `sorted(set(l))`: the distinct elements in ascending string order. -/
def sortedDedup (l : List String) : List String :=
  List.insertionSort pyStrLe l.dedup

/-- Python `list.insert(i, x)` (appends when `i` is past the end). -/
def pyInsert (i : Nat) (x : String) (l : List String) : List String :=
  l.take i ++ x :: l.drop i

/-- Python `list.index(x)`: index of the first occurrence. -/
def pyIndex (x : String) : List String → Nat
  | [] => 0
  | a :: rest => if a = x then 0 else pyIndex x rest + 1

/- MARK: Controlled vocabulary and the vocabulary resolver
   (return_correct_form_label, source lines 199-229). -/

/-- One feature of the controlled vocabulary: a QID code and its label
fragment (`lexeme_form_metadata` maps category → feature → this record). -/
structure VocabEntry where
  qid : String
  label : String
  deriving DecidableEq

/-- The controlled vocabulary: categories in order, each an ordered list of
features.  The source loads this table from `lexeme_form.metadata.json`
(not part of the repository snapshot), so the embedding is parametric in it. -/
abbrev Vocab := List (List VocabEntry)

/-- Source lines 32-37: the flattened QID order (category order, then feature
order within each category). -/
def lexeme_form_qid_order (v : Vocab) : List String :=
  (v.map (fun cat => cat.map (fun e => e.qid))).flatten

/-- Source lines 223-227 inner loops: concatenation of the label fragments of
every vocabulary entry whose QID equals `q`. -/
def label_lookup_concat (v : Vocab) (q : String) : String :=
  String.join (v.map (fun cat =>
    String.join (cat.map (fun e => if q = e.qid then e.label else ""))))

/-- Source lines 199-229, `return_correct_form_label`: resolve a list of QIDs
to the canonical composite label, or to an error string. -/
def return_correct_form_label (v : Vocab) (qids : List String) : String :=
  if qids = [] then "Invalid query formatting found"
  else if (qids.all (fun q => decide (q ∈ lexeme_form_qid_order v))) = false then
    let not_included_qids :=
      sortedDedup (qids.filter (fun q => decide (q ∉ lexeme_form_qid_order v)))
    (if 1 < not_included_qids.length then "QIDs" else "QID") ++ " " ++
      String.intercalate ", " not_included_qids ++
      " not included in lexeme_form.metadata.json"
  else
    let qids_ordered :=
      (lexeme_form_qid_order v).filter (fun q => decide (q ∈ qids))
    let correct_label := String.join (qids_ordered.map (label_lookup_concat v))
    lower_first correct_label

/- MARK: Formatting checker (check_query_formatting, source lines 171-193). -/

/-- Scanner for a two-character regex: is there an adjacent pair of characters
satisfying `p` then `q`? -/
def hasAdjPair (p q : Char → Bool) : List Char → Bool
  | [] => false
  | [_] => false
  | a :: b :: rest => (p a && q b) || hasAdjPair p q (b :: rest)

/-- Source line 186, `re.search(r"\s,", ...)`: a comma preceded by whitespace. -/
def hasSpaceComma (l : List Char) : Bool :=
  hasAdjPair isPySpace (fun c => c = ',') l

/-- Source line 190, `re.search(r"\S[.;]", ...)`: a period or semicolon
immediately preceded by a non-whitespace character. -/
def hasNonSpacePeriodSemi (l : List Char) : Bool :=
  hasAdjPair (fun c => !isPySpace c) (fun c => c = '.' || c = ';') l

/-- Source lines 171-193, `check_query_formatting`. -/
def check_query_formatting (form_text : String) : Bool :=
  if hasSpaceComma form_text.data then false
  else if hasNonSpacePeriodSemi form_text.data then false
  else true

/- MARK: Embedding of the `literal .* terminator` search patterns used by the
label extractor and the form-label consistency checker. -/

/-- `re.search(lit ++ ".*" ++ term, text)` for a literal prefix `lit` and a
literal terminator `term` (neither containing a newline): leftmost start
position where `lit` matches, then the greedy `.*` extends through the last
occurrence of `term` on the same line.  Returns the full matched text. -/
def search_lit_term (lit term : List Char) : List Char → Option (List Char)
  | [] => none
  | l@(_ :: rest) =>
    if lit.isPrefixOf l then
      let seg := (l.drop lit.length).takeWhile (fun c => c ≠ '\n')
      match take_through_last term seg with
      | some p => some (lit ++ p)
      | none => search_lit_term lit term rest
    else search_lit_term lit term rest

/-- `re.search(".*\?(.*)" ++ sep, seg)` applied to a single-line string `seg`:
group of the last `?` that is followed by an occurrence of `sep`, extending
greedily to the last occurrence of `sep`.  `none` when there is no such `?`
or no `sep` at all. -/
def inner_group (sep : Char) (seg : List Char) : Option (List Char) :=
  let r := seg.reverse
  let fromSep := r.dropWhile (fun c => c ≠ sep)
  match fromSep with
  | [] => none
  | _ :: beforeSep =>
    let grpRev := beforeSep.takeWhile (fun c => c ≠ '?')
    if grpRev.length = beforeSep.length then none else some grpRev.reverse

/-- Source lines 83-101, `extract_form_rep_label`: the variable name bound by
the `ontolex:representation` statement (`none` models Python's `None`). -/
def extract_form_rep_label (form_text : List Char) : Option String :=
  match search_lit_term "ontolex:representation ".data " ;".data form_text with
  | none => none
  | some seg =>
    match inner_group ';' seg with
    | none => none
    | some g => some (String.mk (pyStrip g))

/-- Result of a Python call that may raise: `.exn` marks a raised exception. -/
inductive PyResult (α : Type) where
  | exn : PyResult α
  | val : α → PyResult α
  deriving DecidableEq

/-- Extract a `PyResult` value with a default. -/
def PyResult.getD {α : Type} (r : PyResult α) (d : α) : α :=
  match r with
  | .exn => d
  | .val a => a

/-- Forget whether a `PyResult` raised. -/
def PyResult.toOption {α : Type} : PyResult α → Option α
  | .exn => none
  | .val a => some a

/-- Source lines 121-122: leftmost match of
`wikibase:grammaticalFeature .+ \.` (the `.+` must be non-empty). -/
def search_feature : List Char → Option (List Char)
  | [] => none
  | l@(_ :: rest) =>
    if "wikibase:grammaticalFeature ".data.isPrefixOf l then
      let seg := (l.drop 28).takeWhile (fun c => c ≠ '\n')
      match take_through_last " .".data seg with
      | some p => if p.length ≤ 2 then search_feature rest
                  else some ("wikibase:grammaticalFeature ".data ++ p)
      | none => search_feature rest
    else search_feature rest

/-- Source line 123, one comprehension element
`q.split("wd:")[1].split(" .")[0]`: `none` models the `IndexError` raised
when `"wd:"` does not occur in the piece. -/
def pieceQid (p : List Char) : Option String :=
  match (pySplit "wd:".data p)[1]? with
  | none => none
  | some t => some (String.mk (before_first " .".data t))

/-- Source lines 107-123, `extract_form_qids`: `.val none` models Python's
`None` (no match), `.exn` the `IndexError` from a piece without `"wd:"`. -/
def extract_form_qids (form_text : List Char) : PyResult (Option (List String)) :=
  match search_feature form_text with
  | none => .val none
  | some m =>
    match (pySplit ", ".data m).mapM pieceQid with
    | none => .exn
    | some qs => .val (some qs)

/-- Source lines 129-165, `check_form_label`: `none` models the
`UnboundLocalError` raised when a matched statement contains no `?` sigil.
The variable `form_label` is interpolated into a regex pattern at line 154;
the embedding treats it as a literal (faithful whenever the label contains no
regex metacharacters). -/
def check_form_label (form_text : List Char) : Option Bool :=
  match search_lit_term "?lexeme ontolex:lexicalForm ".data " .".data form_text with
  | none => some false
  | some seg =>
    match inner_group '.' seg with
    | none => none
    | some g =>
      let form_label := pyStrip g
      let current_form_rep_label := before_first "Form".data form_label
      match search_lit_term (form_label ++ " ontolex:representation ".data)
          " ;".data form_text with
      | none => some false
      | some seg2 =>
        match inner_group ';' seg2 with
        | none => none
        | some g2 => some (decide (pyStrip g2 = current_form_rep_label))

/- MARK: validate_forms (source lines 235-319). -/

/-- Does the text start with one-or-more whitespace characters followed by the
literal `WHERE`?  (The tail `\s+WHERE` of the SELECT pattern.) -/
def wsThenWhere (l : List Char) : Bool :=
  let w := l.takeWhile isPySpace
  !w.isEmpty && "WHERE".data.isPrefixOf (l.drop w.length)

/-- The lazy group `(.*?)` of `SELECT\s+(.*?)\s+WHERE` (with `re.DOTALL`):
shortest prefix of `l` that is followed by `\s+WHERE`. -/
def findLazySplit : List Char → Option (List Char)
  | [] => none
  | l@(c :: rest) =>
    if wsThenWhere l then some []
    else (findLazySplit rest).map (fun g => c :: g)

/-- Backtracking of the greedy `\s+` right after `SELECT`: try the longest
whitespace run first (`k` down to `1`). -/
def try_ws_desc (l : List Char) : Nat → Option (List Char)
  | 0 => none
  | Nat.succ k =>
    match findLazySplit (l.drop (Nat.succ k)) with
    | some g => some g
    | none => try_ws_desc l k

/-- Match `\s+(.*?)\s+WHERE` against `l` (the text right after `SELECT`),
returning the group. -/
def match_after_select (l : List Char) : Option (List Char) :=
  try_ws_desc l (l.takeWhile isPySpace).length

/-- Source line 257, `re.search(r"SELECT\s+(.*?)\s+WHERE", query_text,
flags=re.DOTALL)`: group 1 of the leftmost match. -/
def search_select : List Char → Option (List Char)
  | [] => none
  | l@(_ :: rest) =>
    if "SELECT".data.isPrefixOf l then
      match match_after_select (l.drop 6) with
      | some g => some g
      | none => search_select rest
    else search_select rest

/-- Source line 258, `re.findall(r"\?(\w+)", s)`: every maximal word-character
run following a `?` sigil, left to right (fuel variant: every recursive call
strictly shortens the text). -/
def find_question_vars_fuel : Nat → List Char → List String
  | 0, _ => []
  | _, [] => []
  | fuel + 1, c :: rest =>
    if c = '?' then
      let w := rest.takeWhile isWordChar
      if w.isEmpty then find_question_vars_fuel fuel rest
      else String.mk w :: find_question_vars_fuel fuel (rest.drop w.length)
    else find_question_vars_fuel fuel rest

/-- Source line 258, `re.findall(r"\?(\w+)", s)`. -/
def find_question_vars (l : List Char) : List String :=
  find_question_vars_fuel l.length l

/-- The tail `\s*\?\s*(\w+)\s*[;.]\s*` of the `wikibase:lemma` pattern,
applied right after the literal `wikibase:lemma`.  Returns the group together
with the text after the match end (after the trailing greedy `\s*`). -/
def parse_lemma_var (l : List Char) : Option (String × List Char) :=
  match l.dropWhile isPySpace with
  | '?' :: l2 =>
    let l3 := l2.dropWhile isPySpace
    let w := l3.takeWhile isWordChar
    if w.isEmpty then none
    else
      match (l3.drop w.length).dropWhile isPySpace with
      | [] => none
      | c :: l5 =>
        if c = ';' || c = '.' then some (String.mk w, l5.dropWhile isPySpace)
        else none
  | _ => none

/-- The lazy `[^}]*?wikibase:lemma...` part of the `dt_pattern`, scanning the
text after the opening brace: find the first `wikibase:lemma` occurrence (not
crossing a closing brace) whose continuation parses; on an inner failure the
lazy class grows and the scan continues. -/
def scan_for_lemma : List Char → Option (String × List Char)
  | [] => none
  | c :: rest =>
    if "wikibase:lemma".data.isPrefixOf (c :: rest) then
      match parse_lemma_var ((c :: rest).drop 14) with
      | some res => some res
      | none => if c = '\x7d' then none else scan_for_lemma rest
    else if c = '\x7d' then none else scan_for_lemma rest

/-- Source lines 267 and 272,
`re.findall(r"WHERE\s*\{[^}]*?wikibase:lemma\s*\?\s*(\w+)\s*[;.]\s*", t)`:
all groups, scanning left to right, resuming after each match end. -/
def find_dt_matches_fuel : Nat → List Char → List String
  | 0, _ => []
  | _, [] => []
  | fuel + 1, c :: rest =>
    if "WHERE".data.isPrefixOf (c :: rest) then
      match ((c :: rest).drop 5).dropWhile isPySpace with
      | '\x7b' :: inner =>
        match scan_for_lemma inner with
        | some (v, restAfter) => v :: find_dt_matches_fuel fuel restAfter
        | none => find_dt_matches_fuel fuel rest
      | _ => find_dt_matches_fuel fuel rest
    else find_dt_matches_fuel fuel rest

/-- Source lines 267 and 272: all groups of the `dt_pattern` findall, scanning
left to right, resuming after each match end.  Fuel variant: a successful
inner match always ends strictly inside the scanned text, so every recursive
call strictly shortens the text and the initial fuel is never exhausted. -/
def find_dt_matches (l : List Char) : List String :=
  find_dt_matches_fuel l.length l

/-- Source line 268, `re.findall(r"ontolex:representation \?([^ ;]+)", t)`. -/
def find_rep_vars_fuel : Nat → List Char → List String
  | 0, _ => []
  | _, [] => []
  | fuel + 1, c :: rest =>
    if "ontolex:representation ?".data.isPrefixOf (c :: rest) then
      let tl := (c :: rest).drop 24
      let w := tl.takeWhile (fun ch => ch ≠ ' ' && ch ≠ ';')
      if w.isEmpty then find_rep_vars_fuel fuel rest
      else String.mk w :: find_rep_vars_fuel fuel (tl.drop w.length)
    else find_rep_vars_fuel fuel rest

/-- Source line 268, `re.findall(r"ontolex:representation \?([^ ;]+)", t)`
(fuel variant: every recursive call strictly shortens the text). -/
def find_rep_vars (l : List Char) : List String :=
  find_rep_vars_fuel l.length l

/-- Source lines 257-258: the SELECT-clause variable list (`none` models the
`"Invalid query format: no SELECT match"` early return). -/
def select_vars_of (query_text : String) : Option (List String) :=
  (search_select query_text.data).map find_question_vars

/-- Source lines 267-279: the naturally-derived WHERE-clause variable list
(lemma variable — with the `"lemma"` → `"preposition"` substitution — then
the representation variables). -/
def natural_where_vars (query_text : String) : List String :=
  (let dt_match := find_dt_matches query_text.data
   if dt_match = ["lemma"] then ["preposition"]
   else
     match dt_match with
     | [] => []
     | d :: _ => [d]) ++ find_rep_vars query_text.data

/-- Source lines 282-286: insert each special labeling-service variable that
occurs in the selection list into the pattern list at its selection index. -/
def insert_special_vars (select_vars where_vars : List String) : List String :=
  (["case", "gender", "auxiliaryVerb"] : List String).foldl
    (fun acc var =>
      if var ∈ select_vars then pyInsert (pyIndex var select_vars) var acc
      else acc)
    where_vars

/-- The full pattern-variable list used by the checks of `validate_forms`. -/
def where_vars_of (query_text : String) (select_vars : List String) :
    List String :=
  insert_special_vars select_vars (natural_where_vars query_text)

/-- Source lines 288-319: the priority chain of checks of `validate_forms`,
over the already-extracted variable lists.  `select_vars` is the selection
list after dropping its first two variables.  Python's unordered
`set(duplicates)` iteration is rendered by `dedupFirst` (first-occurrence
order); the sorted joins are exactly Python's `sorted`. -/
def validate_tail (select_vars where_vars : List String) : String :=
  let uniqueness_forms_check := select_vars.length ≠ select_vars.dedup.length
  let undefined_forms :=
    sortedDedup (select_vars.filter (fun q => decide (q ∉ where_vars)))
  let unreturned_forms :=
    sortedDedup (where_vars.filter (fun q => decide (q ∉ select_vars)))
  let select_f :=
    select_vars.filter (fun q => decide (q ∉ (["lexeme", "lexemeID"] : List String)))
  let where_f :=
    where_vars.filter (fun q => decide (q ∉ (["lexeme", "lexemeID"] : List String)))
  if uniqueness_forms_check then
    let duplicates := select_f.filter (fun v => 1 < select_f.count v)
    "Duplicate forms found in SELECT: " ++
      String.intercalate ", " (dedupFirst duplicates)
  else if undefined_forms ≠ [] then
    "Undefined forms found in SELECT: " ++
      String.intercalate ", " undefined_forms
  else if unreturned_forms ≠ [] then
    "Defined but unreturned forms found: " ++
      String.intercalate ", " unreturned_forms
  else if select_f ≠ where_f then
    "The order of variables in the SELECT statement does not match their order in the WHERE clause."
  else ""

/-- Source lines 235-319, `validate_forms`. -/
def validate_forms (query_text : String) : String :=
  match select_vars_of query_text with
  | none => "Invalid query format: no SELECT match"
  | some sv0 =>
    validate_tail (sv0.drop 2) (where_vars_of query_text (sv0.drop 2))

/- MARK: Docstring checker (check_docstring, source lines 325-361). -/

/-- Python `str.splitlines(keepends=True)`, for newline line boundaries. -/
def splitlines_keepends : List Char → List (List Char)
  | [] => []
  | c :: rest =>
    if c = '\n' then ['\n'] :: splitlines_keepends rest
    else
      match splitlines_keepends rest with
      | [] => [[c]]
      | line :: ls => (c :: line) :: ls

/-- Line-1 pattern `^# tool: scribe-data\n`: for a keepends line this is exact
equality. -/
def line1_ok (l : List Char) : Bool :=
  decide (l = "# tool: scribe-data\n".data)

/-- The tail `\(Q\d+\) and the given forms\.\n` after the second QID group's
opening: expects `" (Q"`, one-or-more digits, then the exact closing text. -/
def line2_qid_tail (l : List Char) : Bool :=
  if " (Q".data.isPrefixOf l then
    let m := l.drop 3
    let d := m.takeWhile Char.isDigit
    !d.isEmpty && decide (m.drop d.length = ") and the given forms.\n".data)
  else false

/-- Scan for the split after the `.+` middle part of the line-2 pattern: some
non-empty newline-free prefix followed by the second QID group and tail. -/
def line2_part3 : List Char → Bool
  | [] => false
  | c :: rest =>
    if c = '\n' then false
    else line2_qid_tail rest || line2_part3 rest

/-- After the lazy group `(.+?)`: expects `" (Q"`, digits, `") "`, then the
`.+`-and-tail part. -/
def line2_after_group (l : List Char) : Bool :=
  if " (Q".data.isPrefixOf l then
    let m := l.drop 3
    let d := m.takeWhile Char.isDigit
    if d.isEmpty then false
    else
      let m2 := m.drop d.length
      if ") ".data.isPrefixOf m2 then line2_part3 (m2.drop 2) else false
  else false

/-- Scan for the split after the lazy group `(.+?)` of the line-2 pattern:
some non-empty newline-free prefix followed by the rest of the pattern. -/
def line2_scan : List Char → Bool
  | [] => false
  | c :: rest =>
    if c = '\n' then false
    else line2_after_group rest || line2_scan rest

/-- Line-2 pattern `^# All (.+?) \(Q\d+\) .+ \(Q\d+\) and the given forms\.\n`
(match existence; `\d` is modelled by its ASCII fragment). -/
def line2_ok (l : List Char) : Bool :=
  "# All ".data.isPrefixOf l && line2_scan (l.drop 6)

/-- Line-3 pattern `^# Enter this query at https://query\.wikidata\.org/\.\n`:
for a keepends line this is exact equality. -/
def line3_ok (l : List Char) : Bool :=
  decide (l = "# Enter this query at https://query.wikidata.org/.\n".data)

/-- Result of `check_docstring`: Python returns `True` (`pass`) or the tuple
`(False, message)` (`fail message`). -/
inductive DocstringCheck where
  | pass : DocstringCheck
  | fail (msg : String) : DocstringCheck
  deriving DecidableEq

/-- The generator chain of `check_docstring` over the already-split lines:
check lines 0,1,2 in order against their patterns, reporting the first
mismatch; `none` models the `IndexError` raised when a needed line is
missing. -/
def check_docstring_lines (lines : List (List Char)) : Option DocstringCheck :=
  match lines[0]? with
  | none => none
  | some l0 =>
    if line1_ok l0 = false then
      some (.fail ("Error in line 1: " ++ String.mk (pyStrip l0)))
    else
      match lines[1]? with
      | none => none
      | some l1 =>
        if line2_ok l1 = false then
          some (.fail ("Error in line 2: " ++ String.mk (pyStrip l1)))
        else
          match lines[2]? with
          | none => none
          | some l2 =>
            if line3_ok l2 = false then
              some (.fail ("Error in line 3: " ++ String.mk (pyStrip l2)))
            else some .pass

/-- Source lines 325-361, `check_docstring`. -/
def check_docstring (query_text : String) : Option DocstringCheck :=
  check_docstring_lines (splitlines_keepends query_text.data)

/-- The pattern applied to line index `i` (`0`, `1`, `2`) by
`check_docstring`. -/
def docstring_line_ok (i : Nat) (l : List Char) : Bool :=
  match i with
  | 0 => line1_ok l
  | 1 => line2_ok l
  | 2 => line3_ok l
  | _ => true

/- MARK: Orchestrator per-file collection (check_query_forms,
source lines 391-409). -/

/-- The per-block results collected by the orchestrator (source lines
404-409). -/
structure FormCheckResult where
  form_rep_match : Bool
  correct_formatting : Bool
  qids : Option (List String)
  correct_form_rep_label : String
  deriving DecidableEq

/-- Source line 402: `return_correct_form_label(qids=qids)` where `qids` may
be Python `None` (falsy, like the empty list). -/
def return_correct_form_label_opt (v : Vocab) (q : Option (List String)) :
    String :=
  match q with
  | none => "Invalid query formatting found"
  | some qs => return_correct_form_label v qs

/-- Source lines 394-397: a form block is processed when it mentions both the
`ontolex:lexicalForm` and the `ontolex:representation` relations. -/
def eligibleForm (form_text : List Char) : Bool :=
  containsSub "ontolex:lexicalForm".data form_text &&
    containsSub "ontolex:representation".data form_text

/-- Source lines 398-409: the four per-block check results (`.exn` when
`check_form_label` or `extract_form_qids` raises). -/
def blockResults (v : Vocab) (form_text : List Char) :
    PyResult FormCheckResult :=
  match check_form_label form_text, extract_form_qids form_text with
  | some b, .val q =>
    .val
      { form_rep_match := b
        correct_formatting := check_query_formatting (String.mk form_text)
        qids := q
        correct_form_rep_label := return_correct_form_label_opt v q }
  | _, _ => .exn

/-- Python dict assignment `d[k] = v` on an association list: replace the
value at an existing key in place, otherwise append the pair at the end. -/
def dictInsert (k : Option String) (r : FormCheckResult) :
    List (Option String × FormCheckResult) →
    List (Option String × FormCheckResult)
  | [] => [(k, r)]
  | p :: rest => if p.1 = k then (k, r) :: rest else p :: dictInsert k r rest

/-- Python dict lookup on the association list. -/
def lookupDict (d : List (Option String × FormCheckResult))
    (k : Option String) : Option FormCheckResult :=
  (d.find? (fun p => decide (p.1 = k))).map (fun p => p.2)

/-- Source lines 392-409: the loop building `query_form_check_dict`, keyed by
the extracted representation label; `.exn` when any processed block raises. -/
def build_dict (v : Vocab) :
    List (List Char) → List (Option String × FormCheckResult) →
    PyResult (List (Option String × FormCheckResult))
  | [], d => .val d
  | ft :: rest, d =>
    if eligibleForm ft then
      match blockResults v ft with
      | .exn => .exn
      | .val r => build_dict v rest (dictInsert (extract_form_rep_label ft) r d)
    else build_dict v rest d

/- MARK: Helper lemmas. -/

theorem hasAdjPair_iff (p q : Char → Bool) (l : List Char) :
    hasAdjPair p q l = true ↔
      ∃ i a b, l[i]? = some a ∧ l[i + 1]? = some b ∧ p a = true ∧ q b = true := by
  induction l with
  | nil =>
    constructor
    · intro h; exact absurd h (by simp [hasAdjPair])
    · rintro ⟨i, a, b, h1, h2, hp, hq⟩
      simp at h1
  | cons x rest ih =>
    cases rest with
    | nil =>
      constructor
      · intro h; exact absurd h (by simp [hasAdjPair])
      · rintro ⟨i, a, b, h1, h2, hp, hq⟩
        rcases i with _ | j
        · simp at h2
        · simp at h1
    | cons y rest2 =>
      rw [hasAdjPair, Bool.or_eq_true, Bool.and_eq_true]
      constructor
      · rintro (⟨hp, hq⟩ | hrec)
        · exact ⟨0, x, y, by simp, by simp, hp, hq⟩
        · obtain ⟨i, a, b, h1, h2, hp, hq⟩ := ih.mp hrec
          exact ⟨i + 1, a, b, by simpa using h1, by simpa using h2, hp, hq⟩
      · rintro ⟨i, a, b, h1, h2, hp, hq⟩
        cases i with
        | zero =>
          simp only [List.getElem?_cons_succ, List.getElem?_cons_zero,
            Option.some.injEq] at h1 h2
          subst h1
          subst h2
          exact Or.inl ⟨hp, hq⟩
        | succ j =>
          refine Or.inr (ih.mpr ⟨j, a, b, ?_, ?_, hp, hq⟩)
          · simpa using h1
          · simpa using h2

theorem sortedDedup_sorted (l : List String) :
    List.Sorted pyStrLe (sortedDedup l) :=
  List.sorted_insertionSort _ _

theorem sortedDedup_nodup (l : List String) : (sortedDedup l).Nodup :=
  ((List.perm_insertionSort _ _).nodup_iff).mpr (List.nodup_dedup l)

theorem mem_sortedDedup (l : List String) (q : String) :
    q ∈ sortedDedup l ↔ q ∈ l := by
  unfold sortedDedup
  rw [(List.perm_insertionSort _ _).mem_iff, List.mem_dedup]

theorem dedupFirst_all_eq (a : String) (l : List String) (hne : l ≠ [])
    (hall : ∀ x ∈ l, x = a) : dedupFirst l = [a] := by
  cases l with
  | nil => exact absurd rfl hne
  | cons b rest =>
    have hb : b = a := hall b (by simp)
    subst hb
    have hrest : rest.filter (fun x => decide (x ≠ b)) = [] := by
      rw [List.filter_eq_nil_iff]
      intro x hx
      have := hall x (by simp [hx])
      simp [this]
    show dedupFirstFuel (b :: rest).length (b :: rest) = [b]
    rw [List.length_cons, dedupFirstFuel, hrest]
    cases hr : rest.length with
    | zero => simp [dedupFirstFuel]
    | succ n => simp [dedupFirstFuel]

/- MARK: Claim theorems. -/

/-- Claim C8: `return_correct_form_label` applied to an empty code collection
returns exactly the literal string `"Invalid query formatting found"`. -/
theorem return_correct_form_label_empty (v : Vocab) :
    return_correct_form_label v [] = "Invalid query formatting found" := by
  rfl

/-- Claim C9: `check_query_formatting` returns `false` exactly for texts with
a whitespace-then-comma pair or a non-whitespace-then-period/semicolon pair;
in particular the three quoted examples behave as claimed. -/
theorem check_query_formatting_characterization :
    (∀ s : String,
      check_query_formatting s = false ↔
        ∃ i a b, s.data[i]? = some a ∧ s.data[i + 1]? = some b ∧
          ((isPySpace a = true ∧ b = ',') ∨
            (isPySpace a = false ∧ (b = '.' ∨ b = ';')))) ∧
    check_query_formatting "?x ontolex:representation ?y ." = true ∧
    check_query_formatting "?x ontolex:representation ?y." = false ∧
    check_query_formatting "?x , ?y" = false := by
  refine ⟨?_, by decide, by decide, by decide⟩
  intro s
  have hiff : check_query_formatting s = false ↔
      (hasSpaceComma s.data = true ∨ hasNonSpacePeriodSemi s.data = true) := by
    unfold check_query_formatting
    by_cases h1 : hasSpaceComma s.data
    · simp [h1]
    · by_cases h2 : hasNonSpacePeriodSemi s.data <;> simp [h1, h2]
  rw [hiff, hasSpaceComma, hasNonSpacePeriodSemi, hasAdjPair_iff, hasAdjPair_iff]
  constructor
  · rintro (⟨i, a, b, h1, h2, hp, hq⟩ | ⟨i, a, b, h1, h2, hp, hq⟩)
    · refine ⟨i, a, b, h1, h2, Or.inl ⟨hp, ?_⟩⟩
      simpa using hq
    · refine ⟨i, a, b, h1, h2, Or.inr ⟨?_, ?_⟩⟩
      · simpa using hp
      · simpa using hq
  · rintro ⟨i, a, b, h1, h2, (⟨hp, hq⟩ | ⟨hp, hq⟩)⟩
    · exact Or.inl ⟨i, a, b, h1, h2, hp, by simp [hq]⟩
    · exact Or.inr ⟨i, a, b, h1, h2, by simp [hp], by simp [hq]⟩

/-- Claim C1: for code lists drawn from the vocabulary's flattened code
order, `return_correct_form_label` is order-independent — any permutation of
the same codes yields the same label string. -/
theorem return_correct_form_label_order_independent (v : Vocab)
    (q1 q2 : List String) (hperm : q1.Perm q2)
    (hsub : ∀ q ∈ q1, q ∈ lexeme_form_qid_order v) :
    return_correct_form_label v q1 = return_correct_form_label v q2 := by
  rcases eq_or_ne q1 [] with h1 | h1
  · have h2 : q2 = [] := by
      rw [h1] at hperm
      exact hperm.symm.eq_nil
    rw [h1, h2]
  · have h2 : q2 ≠ [] := by
      intro h2
      rw [h2] at hperm
      exact h1 hperm.eq_nil
    have hall1 : q1.all (fun q => decide (q ∈ lexeme_form_qid_order v)) = true := by
      simp only [List.all_eq_true, decide_eq_true_eq]
      exact hsub
    have hall2 : q2.all (fun q => decide (q ∈ lexeme_form_qid_order v)) = true := by
      simp only [List.all_eq_true, decide_eq_true_eq]
      exact fun q hq => hsub q (hperm.mem_iff.mpr hq)
    have hfilter : (lexeme_form_qid_order v).filter (fun q => decide (q ∈ q1)) =
        (lexeme_form_qid_order v).filter (fun q => decide (q ∈ q2)) := by
      apply List.filter_congr
      intro a _
      simp [hperm.mem_iff]
    unfold return_correct_form_label
    rw [if_neg h1, if_neg h2, if_neg (by simp [hall1]), if_neg (by simp [hall2]),
      hfilter]

/-- Claim C1 witness. -/
theorem return_correct_form_label_order_independent_witness :
    ((["Q2", "Q1"] : List String).Perm ["Q1", "Q2"] ∧
      ∀ q ∈ (["Q2", "Q1"] : List String),
        q ∈ lexeme_form_qid_order [[⟨"Q1", "Singular"⟩, ⟨"Q2", "Plural"⟩]]) ∧
    return_correct_form_label [[⟨"Q1", "Singular"⟩, ⟨"Q2", "Plural"⟩]]
        ["Q2", "Q1"] =
      return_correct_form_label [[⟨"Q1", "Singular"⟩, ⟨"Q2", "Plural"⟩]]
        ["Q1", "Q2"] :=
  ⟨⟨by decide, by decide⟩,
    return_correct_form_label_order_independent
      [[⟨"Q1", "Singular"⟩, ⟨"Q2", "Plural"⟩]] ["Q2", "Q1"] ["Q1", "Q2"]
      (by decide) (by decide)⟩

/-- Claim C7: with at least one code absent from the flattened vocabulary
order, `return_correct_form_label` returns the pluralized error string
listing exactly the absent codes, sorted ascending and without duplicates. -/
theorem return_correct_form_label_unknown (v : Vocab) (qids : List String)
    (hne : qids ≠ [])
    (hmiss : ∃ q ∈ qids, q ∉ lexeme_form_qid_order v) :
    ∃ ms : List String,
      List.Sorted pyStrLe ms ∧ ms.Nodup ∧
      (∀ q, q ∈ ms ↔ q ∈ qids ∧ q ∉ lexeme_form_qid_order v) ∧
      return_correct_form_label v qids =
        (if 1 < ms.length then "QIDs" else "QID") ++ " " ++
          String.intercalate ", " ms ++
          " not included in lexeme_form.metadata.json" := by
  obtain ⟨q0, hq0, hq0n⟩ := hmiss
  have hall : qids.all (fun q => decide (q ∈ lexeme_form_qid_order v)) = false := by
    rw [Bool.eq_false_iff]
    intro hcontra
    rw [List.all_eq_true] at hcontra
    have := hcontra q0 hq0
    simp only [decide_eq_true_eq] at this
    exact hq0n this
  refine ⟨sortedDedup (qids.filter
    (fun q => decide (q ∉ lexeme_form_qid_order v))), sortedDedup_sorted _,
    sortedDedup_nodup _, ?_, ?_⟩
  · intro q
    rw [mem_sortedDedup, List.mem_filter, decide_eq_true_eq]
  · unfold return_correct_form_label
    rw [if_neg hne, if_pos (by simp [hall])]

/-- Claim C7 witness. -/
theorem return_correct_form_label_unknown_witness :
    ((["Q9", "Q8", "Q9"] : List String) ≠ [] ∧
      ∃ q ∈ (["Q9", "Q8", "Q9"] : List String),
        q ∉ lexeme_form_qid_order [[⟨"Q1", "Singular"⟩]]) ∧
    ∃ ms : List String,
      List.Sorted pyStrLe ms ∧ ms.Nodup ∧
      (∀ q, q ∈ ms ↔ q ∈ (["Q9", "Q8", "Q9"] : List String) ∧
        q ∉ lexeme_form_qid_order [[⟨"Q1", "Singular"⟩]]) ∧
      return_correct_form_label [[⟨"Q1", "Singular"⟩]] ["Q9", "Q8", "Q9"] =
        (if 1 < ms.length then "QIDs" else "QID") ++ " " ++
          String.intercalate ", " ms ++
          " not included in lexeme_form.metadata.json" :=
  ⟨⟨by decide, by decide⟩,
    return_correct_form_label_unknown [[⟨"Q1", "Singular"⟩]] ["Q9", "Q8", "Q9"]
      (by decide) (by decide)⟩

theorem check_docstring_lines_eq_none_iff (L : List (List Char)) :
    check_docstring_lines L = none ↔
      (L.length < 3 ∧ ∀ i a, L[i]? = some a → docstring_line_ok i a = true) := by
  rcases L with _ | ⟨l0, _ | ⟨l1, _ | ⟨l2, rest⟩⟩⟩
  · constructor
    · intro _
      exact ⟨by norm_num, fun i a ha => absurd ha (by simp)⟩
    · intro _
      rfl
  · constructor
    · intro h
      by_cases hl : line1_ok l0
      · refine ⟨by norm_num, ?_⟩
        intro i a ha
        rcases i with _ | i
        · simp only [List.getElem?_cons_zero, Option.some.injEq] at ha
          subst ha
          simpa [docstring_line_ok] using hl
        · simp at ha
      · rw [Bool.not_eq_true] at hl
        simp [check_docstring_lines, hl] at h
    · rintro ⟨-, hall⟩
      have h0 := hall 0 l0 (by simp)
      simp only [docstring_line_ok] at h0
      simp [check_docstring_lines, h0]
  · constructor
    · intro h
      by_cases h1 : line1_ok l0
      · by_cases h2 : line2_ok l1
        · refine ⟨by norm_num, ?_⟩
          intro i a ha
          rcases i with _ | _ | i
          · simp only [List.getElem?_cons_zero, Option.some.injEq] at ha
            subst ha
            simpa [docstring_line_ok] using h1
          · simp only [List.getElem?_cons_succ, List.getElem?_cons_zero,
              Option.some.injEq] at ha
            subst ha
            simpa [docstring_line_ok] using h2
          · simp at ha
        · rw [Bool.not_eq_true] at h2
          simp [check_docstring_lines, h1, h2] at h
      · rw [Bool.not_eq_true] at h1
        simp [check_docstring_lines, h1] at h
    · rintro ⟨-, hall⟩
      have h0 := hall 0 l0 (by simp)
      have h1 := hall 1 l1 (by simp)
      simp only [docstring_line_ok] at h0 h1
      simp [check_docstring_lines, h0, h1]
  · constructor
    · intro h
      exfalso
      by_cases h1 : line1_ok l0
      · by_cases h2 : line2_ok l1
        · by_cases h3 : line3_ok l2
          · simp [check_docstring_lines, h1, h2, h3] at h
          · rw [Bool.not_eq_true] at h3
            simp [check_docstring_lines, h1, h2, h3] at h
        · rw [Bool.not_eq_true] at h2
          simp [check_docstring_lines, h1, h2] at h
      · rw [Bool.not_eq_true] at h1
        simp [check_docstring_lines, h1] at h
    · rintro ⟨hlen, -⟩
      simp only [List.length_cons] at hlen
      omega

/-- Claim C2: `check_docstring` is a strict 3-line prefix check: when the
first three lines all match their fixed patterns it returns `True`; the first
deviating line among the present first three lines is reported alone, by its
1-indexed number together with its stripped text. -/
theorem check_docstring_contract (t : String) :
    (∀ l0 l1 l2,
      (splitlines_keepends t.data)[0]? = some l0 →
      (splitlines_keepends t.data)[1]? = some l1 →
      (splitlines_keepends t.data)[2]? = some l2 →
      line1_ok l0 = true → line2_ok l1 = true → line3_ok l2 = true →
      check_docstring t = some DocstringCheck.pass) ∧
    (∀ l0,
      (splitlines_keepends t.data)[0]? = some l0 → line1_ok l0 = false →
      check_docstring t = some (DocstringCheck.fail
        ("Error in line 1: " ++ String.mk (pyStrip l0)))) ∧
    (∀ l0 l1,
      (splitlines_keepends t.data)[0]? = some l0 → line1_ok l0 = true →
      (splitlines_keepends t.data)[1]? = some l1 → line2_ok l1 = false →
      check_docstring t = some (DocstringCheck.fail
        ("Error in line 2: " ++ String.mk (pyStrip l1)))) ∧
    (∀ l0 l1 l2,
      (splitlines_keepends t.data)[0]? = some l0 → line1_ok l0 = true →
      (splitlines_keepends t.data)[1]? = some l1 → line2_ok l1 = true →
      (splitlines_keepends t.data)[2]? = some l2 → line3_ok l2 = false →
      check_docstring t = some (DocstringCheck.fail
        ("Error in line 3: " ++ String.mk (pyStrip l2)))) := by
  refine ⟨?_, ?_, ?_, ?_⟩
  · intro l0 l1 l2 h0 h1 h2 p1 p2 p3
    simp [check_docstring, check_docstring_lines, h0, h1, h2, p1, p2, p3]
  · intro l0 h0 p1
    simp [check_docstring, check_docstring_lines, h0, p1]
  · intro l0 l1 h0 p1 h1 p2
    simp [check_docstring, check_docstring_lines, h0, h1, p1, p2]
  · intro l0 l1 l2 h0 p1 h1 p2 h2 p3
    simp [check_docstring, check_docstring_lines, h0, h1, h2, p1, p2, p3]

/-- Claim C2 witness. -/
theorem check_docstring_contract_witness :
    ((splitlines_keepends ("# tool: scribe-data\n# All nouns (Q123) and their forms (Q456) and the given forms.\n# Enter this query at https://query.wikidata.org/.\nSELECT ?lexeme").data)[0]? =
        some ("# tool: scribe-data\n").data ∧
      (splitlines_keepends ("# tool: scribe-data\n# All nouns (Q123) and their forms (Q456) and the given forms.\n# Enter this query at https://query.wikidata.org/.\nSELECT ?lexeme").data)[1]? =
        some ("# All nouns (Q123) and their forms (Q456) and the given forms.\n").data ∧
      (splitlines_keepends ("# tool: scribe-data\n# All nouns (Q123) and their forms (Q456) and the given forms.\n# Enter this query at https://query.wikidata.org/.\nSELECT ?lexeme").data)[2]? =
        some ("# Enter this query at https://query.wikidata.org/.\n").data ∧
      line1_ok ("# tool: scribe-data\n").data = true ∧
      line2_ok ("# All nouns (Q123) and their forms (Q456) and the given forms.\n").data = true ∧
      line3_ok ("# Enter this query at https://query.wikidata.org/.\n").data = true) ∧
    check_docstring "# tool: scribe-data\n# All nouns (Q123) and their forms (Q456) and the given forms.\n# Enter this query at https://query.wikidata.org/.\nSELECT ?lexeme" =
      some DocstringCheck.pass :=
  ⟨⟨by decide, by decide, by decide, by decide, by decide, by decide⟩,
    (check_docstring_contract
      "# tool: scribe-data\n# All nouns (Q123) and their forms (Q456) and the given forms.\n# Enter this query at https://query.wikidata.org/.\nSELECT ?lexeme").1
      ("# tool: scribe-data\n").data
      ("# All nouns (Q123) and their forms (Q456) and the given forms.\n").data
      ("# Enter this query at https://query.wikidata.org/.\n").data
      (by decide) (by decide) (by decide) (by decide) (by decide) (by decide)⟩

/-- Claim C6 counterexample: the checking functions can raise on malformed
content — `check_docstring` raises `IndexError` on a document with fewer than
three lines whose present lines all match, `check_form_label` raises
`UnboundLocalError` when the matched representation statement binds no
`?`-sigil variable, and `extract_form_qids` raises `IndexError` when a
feature segment lacks the `wd:` prefix. -/
theorem core_checks_never_throw_cex :
    check_docstring "" = none ∧
    check_form_label ("?lexeme ontolex:lexicalForm ?xForm .\nxForm ontolex:representation rep ;").data = none ∧
    extract_form_qids ("wikibase:grammaticalFeature Q1 .").data = PyResult.exn :=
  ⟨by decide, by decide, by decide⟩

/-- Claim C6 amended: the checking functions return structured results for
well-formed content but three of them can raise: `check_docstring` raises
exactly when the document has fewer than three lines and every present line
matches its pattern; `check_form_label` and `extract_form_qids` raise on the
malformed statements exhibited below. -/
theorem core_checks_exception_characterization :
    (∀ t : String,
      check_docstring t = none ↔
        ((splitlines_keepends t.data).length < 3 ∧
          ∀ i a, (splitlines_keepends t.data)[i]? = some a →
            docstring_line_ok i a = true)) ∧
    check_form_label ("?lexeme ontolex:lexicalForm ?accForm .\naccForm ontolex:representation accusative ;").data = none ∧
    extract_form_qids ("wikibase:grammaticalFeature Q7, Q8 .").data = PyResult.exn := by
  refine ⟨?_, by decide, by decide⟩
  intro t
  exact check_docstring_lines_eq_none_iff (splitlines_keepends t.data)

/-- Claim C6 amended witness. -/
theorem core_checks_exception_characterization_witness :
    check_docstring "# tool: scribe-data\n" = none ∧
    ((splitlines_keepends ("# tool: scribe-data\n").data).length < 3 ∧
      ∀ i a, (splitlines_keepends ("# tool: scribe-data\n").data)[i]? = some a →
        docstring_line_ok i a = true) :=
  ⟨by decide,
    (core_checks_exception_characterization.1 "# tool: scribe-data\n").mp
      (by decide)⟩

theorem validate_tail_duplicate (sv wv : List String)
    (hU : sv.length ≠ sv.dedup.length) :
    validate_tail sv wv =
      "Duplicate forms found in SELECT: " ++
        String.intercalate ", " (dedupFirst
          ((sv.filter (fun q => decide (q ∉ (["lexeme", "lexemeID"] : List String)))).filter
            (fun v => decide (1 <
              (sv.filter (fun q =>
                decide (q ∉ (["lexeme", "lexemeID"] : List String)))).count v)))) := by
  simp only [validate_tail]
  rw [if_pos hU]

theorem validate_tail_undefined (sv wv : List String)
    (hU : ¬ sv.length ≠ sv.dedup.length)
    (hne : sortedDedup (sv.filter (fun q => decide (q ∉ wv))) ≠ []) :
    validate_tail sv wv =
      "Undefined forms found in SELECT: " ++
        String.intercalate ", " (sortedDedup (sv.filter (fun q => decide (q ∉ wv)))) := by
  simp only [validate_tail]
  rw [if_neg hU, if_pos hne]

theorem validate_tail_no_undefined_marker (sv wv : List String)
    (hU : ¬ sv.length ≠ sv.dedup.length)
    (hmiss : sortedDedup (sv.filter (fun q => decide (q ∉ wv))) = []) :
    "Undefined forms found in SELECT: ".data.isPrefixOf
      (validate_tail sv wv).data = false := by
  simp only [validate_tail]
  rw [if_neg hU, if_neg (not_not_intro hmiss)]
  by_cases h3 : sortedDedup (wv.filter (fun q => decide (q ∉ sv))) ≠ []
  · rw [if_pos h3]
    rfl
  · rw [if_neg h3]
    by_cases h4 : sv.filter (fun q => decide (q ∉ (["lexeme", "lexemeID"] : List String))) ≠
        wv.filter (fun q => decide (q ∉ (["lexeme", "lexemeID"] : List String)))
    · rw [if_pos h4]
      decide
    · rw [if_neg h4]
      decide

/-- Claim C3 counterexample: a selection list containing `singular` twice but
also another duplicated variable produces a duplicate error whose message does
not contain the substring `"Duplicate forms found in SELECT: singular"` (the
other variable is listed first). -/
theorem validate_forms_duplicate_cex :
    validate_forms "SELECT ?lexeme ?lexemeID ?alpha ?alpha ?singular ?singular WHERE \x7b ?lexeme wikibase:lemma ?alpha . \x7d" =
      "Duplicate forms found in SELECT: alpha, singular" ∧
    select_vars_of "SELECT ?lexeme ?lexemeID ?alpha ?alpha ?singular ?singular WHERE \x7b ?lexeme wikibase:lemma ?alpha . \x7d" =
      some ["lexeme", "lexemeID", "alpha", "alpha", "singular", "singular"] ∧
    2 ≤ ((["lexeme", "lexemeID", "alpha", "alpha", "singular", "singular"].drop 2).count
      "singular") ∧
    containsSub "Duplicate forms found in SELECT: singular".data
      (validate_forms "SELECT ?lexeme ?lexemeID ?alpha ?alpha ?singular ?singular WHERE \x7b ?lexeme wikibase:lemma ?alpha . \x7d").data =
      false :=
  ⟨by decide, by decide, by decide, by decide⟩

/-- Claim C3 (amended): when `singular` occurs at least twice in the
selection list (after dropping the first two variables) and no other variable
of the name-filtered selection list is duplicated, `validate_forms` returns
exactly `"Duplicate forms found in SELECT: singular"`; in particular the
duplicate check takes priority over any order mismatch. -/
theorem validate_forms_duplicate_priority (qt : String) (sv0 : List String)
    (hsv : select_vars_of qt = some sv0)
    (hsing : 2 ≤ (sv0.drop 2).count "singular")
    (honly : ∀ x ∈ (sv0.drop 2).filter
        (fun q => decide (q ∉ (["lexeme", "lexemeID"] : List String))),
      x ≠ "singular" →
      ((sv0.drop 2).filter
        (fun q => decide (q ∉ (["lexeme", "lexemeID"] : List String)))).count x ≤ 1) :
    validate_forms qt = "Duplicate forms found in SELECT: singular" := by
  have hU : (sv0.drop 2).length ≠ (sv0.drop 2).dedup.length := by
    intro hlen
    have hsub := List.dedup_sublist (sv0.drop 2)
    have heq : (sv0.drop 2).dedup = sv0.drop 2 := hsub.eq_of_length hlen.symm
    have hnd : (sv0.drop 2).Nodup := List.dedup_eq_self.mp heq
    have := List.nodup_iff_count_le_one.mp hnd "singular"
    omega
  have hcount : ((sv0.drop 2).filter
      (fun q => decide (q ∉ (["lexeme", "lexemeID"] : List String)))).count "singular" =
      (sv0.drop 2).count "singular" :=
    List.count_filter (by decide)
  have hmem_sing : "singular" ∈ ((sv0.drop 2).filter
      (fun q => decide (q ∉ (["lexeme", "lexemeID"] : List String)))).filter
        (fun v => decide (1 <
          ((sv0.drop 2).filter (fun q =>
            decide (q ∉ (["lexeme", "lexemeID"] : List String)))).count v)) := by
    rw [List.mem_filter]
    refine ⟨?_, by rw [decide_eq_true_iff, hcount]; omega⟩
    rw [List.mem_filter]
    exact ⟨List.count_pos_iff.mp (by omega), by decide⟩
  have hall_eq : ∀ x ∈ ((sv0.drop 2).filter
      (fun q => decide (q ∉ (["lexeme", "lexemeID"] : List String)))).filter
        (fun v => decide (1 <
          ((sv0.drop 2).filter (fun q =>
            decide (q ∉ (["lexeme", "lexemeID"] : List String)))).count v)),
      x = "singular" := by
    intro x hx
    rw [List.mem_filter] at hx
    obtain ⟨hx1, hx2⟩ := hx
    rw [decide_eq_true_iff] at hx2
    by_contra hne
    have := honly x hx1 hne
    omega
  have hdedup := dedupFirst_all_eq "singular" _
    (List.ne_nil_of_mem hmem_sing) hall_eq
  simp only [validate_forms, hsv]
  rw [validate_tail_duplicate _ _ hU, hdedup]
  rfl

/-- Claim C3 (amended) witness. -/
theorem validate_forms_duplicate_priority_witness :
    (select_vars_of "SELECT ?lexeme ?lexemeID ?singular ?singular WHERE \x7b ?lexeme wikibase:lemma ?singular . \x7d" =
        some ["lexeme", "lexemeID", "singular", "singular"] ∧
      2 ≤ ((["lexeme", "lexemeID", "singular", "singular"] : List String).drop 2).count
        "singular" ∧
      ∀ x ∈ ((["lexeme", "lexemeID", "singular", "singular"] : List String).drop 2).filter
          (fun q => decide (q ∉ (["lexeme", "lexemeID"] : List String))),
        x ≠ "singular" →
        (((["lexeme", "lexemeID", "singular", "singular"] : List String).drop 2).filter
          (fun q => decide (q ∉ (["lexeme", "lexemeID"] : List String)))).count x ≤ 1) ∧
    validate_forms "SELECT ?lexeme ?lexemeID ?singular ?singular WHERE \x7b ?lexeme wikibase:lemma ?singular . \x7d" =
      "Duplicate forms found in SELECT: singular" :=
  ⟨⟨by decide, by decide, by decide⟩,
    validate_forms_duplicate_priority
      "SELECT ?lexeme ?lexemeID ?singular ?singular WHERE \x7b ?lexeme wikibase:lemma ?singular . \x7d"
      ["lexeme", "lexemeID", "singular", "singular"]
      (by decide) (by decide) (by decide)⟩

/-- Claim C4 counterexample: the completeness check runs before `"lexeme"` /
`"lexemeID"` are dropped by name, so a selection list whose third variable is
`lexeme` (which no pattern statement binds) yields an error naming `lexeme`,
although every selection variable other than `lexeme`/`lexemeID` (there are
none) appears in the pattern list. -/
theorem validate_forms_undefined_cex :
    validate_forms "SELECT ?lexeme ?lexemeID ?lexeme WHERE \x7b ?lexeme wikibase:lemma ?singular . \x7d" =
      "Undefined forms found in SELECT: lexeme" ∧
    select_vars_of "SELECT ?lexeme ?lexemeID ?lexeme WHERE \x7b ?lexeme wikibase:lemma ?singular . \x7d" =
      some ["lexeme", "lexemeID", "lexeme"] ∧
    ((["lexeme", "lexemeID", "lexeme"] : List String).drop 2).filter
      (fun q => decide (q ∉ (["lexeme", "lexemeID"] : List String))) = [] :=
  ⟨by decide, by decide, by decide⟩

/-- Claim C4 (amended): when the selection list (after dropping its first two
variables) has no duplicates, an `"Undefined forms found in SELECT"` error is
produced exactly when some remaining selection variable — including
`lexeme`/`lexemeID` if they occur beyond the first two positions — is absent
from the pattern-variable list, and the error names exactly the missing
distinct variables, sorted ascending. -/
theorem validate_forms_undefined_characterization (qt : String)
    (sv0 : List String) (ms : List String)
    (hsv : select_vars_of qt = some sv0)
    (hnd : (sv0.drop 2).Nodup)
    (hms : ms = sortedDedup ((sv0.drop 2).filter
      (fun q => decide (q ∉ where_vars_of qt (sv0.drop 2))))) :
    ("Undefined forms found in SELECT: ".data.isPrefixOf
        (validate_forms qt).data = true ↔ ms ≠ []) ∧
    (ms ≠ [] → validate_forms qt =
      "Undefined forms found in SELECT: " ++ String.intercalate ", " ms) ∧
    (∀ q, q ∈ ms ↔ q ∈ sv0.drop 2 ∧ q ∉ where_vars_of qt (sv0.drop 2)) ∧
    List.Sorted pyStrLe ms ∧ ms.Nodup := by
  have hVF : validate_forms qt =
      validate_tail (sv0.drop 2) (where_vars_of qt (sv0.drop 2)) := by
    simp only [validate_forms, hsv]
  have hU : ¬ (sv0.drop 2).length ≠ (sv0.drop 2).dedup.length := by
    rw [List.dedup_eq_self.mpr hnd]
    simp
  subst hms
  refine ⟨⟨?_, ?_⟩, ?_, ?_, ?_, ?_⟩
  · intro hpre hms0
    rw [hVF, validate_tail_no_undefined_marker _ _ hU hms0] at hpre
    exact absurd hpre (by simp)
  · intro hne
    rw [hVF, validate_tail_undefined _ _ hU hne, List.isPrefixOf_iff_prefix,
      String.data_append]
    exact List.prefix_append _ _
  · intro hne
    rw [hVF, validate_tail_undefined _ _ hU hne]
  · intro q
    rw [mem_sortedDedup, List.mem_filter, decide_eq_true_eq]
  · exact sortedDedup_sorted _
  · exact sortedDedup_nodup _

/-- Claim C4 (amended) witness. -/
theorem validate_forms_undefined_characterization_witness :
    (select_vars_of "SELECT ?lexeme ?lexemeID ?plural WHERE \x7b ?lexeme wikibase:lemma ?singular . \x7d" =
        some ["lexeme", "lexemeID", "plural"] ∧
      ((["lexeme", "lexemeID", "plural"] : List String).drop 2).Nodup ∧
      (["plural"] : List String) = sortedDedup
        (((["lexeme", "lexemeID", "plural"] : List String).drop 2).filter
          (fun q => decide (q ∉ where_vars_of
            "SELECT ?lexeme ?lexemeID ?plural WHERE \x7b ?lexeme wikibase:lemma ?singular . \x7d"
            ((["lexeme", "lexemeID", "plural"] : List String).drop 2))))) ∧
    (("Undefined forms found in SELECT: ".data.isPrefixOf
        (validate_forms "SELECT ?lexeme ?lexemeID ?plural WHERE \x7b ?lexeme wikibase:lemma ?singular . \x7d").data = true ↔
      (["plural"] : List String) ≠ []) ∧
      ((["plural"] : List String) ≠ [] →
        validate_forms "SELECT ?lexeme ?lexemeID ?plural WHERE \x7b ?lexeme wikibase:lemma ?singular . \x7d" =
          "Undefined forms found in SELECT: " ++
            String.intercalate ", " ["plural"]) ∧
      (∀ q, q ∈ (["plural"] : List String) ↔
        q ∈ (["lexeme", "lexemeID", "plural"] : List String).drop 2 ∧
        q ∉ where_vars_of
          "SELECT ?lexeme ?lexemeID ?plural WHERE \x7b ?lexeme wikibase:lemma ?singular . \x7d"
          ((["lexeme", "lexemeID", "plural"] : List String).drop 2)) ∧
      List.Sorted pyStrLe ["plural"] ∧ (["plural"] : List String).Nodup) :=
  ⟨⟨by decide, by decide, by decide⟩,
    validate_forms_undefined_characterization
      "SELECT ?lexeme ?lexemeID ?plural WHERE \x7b ?lexeme wikibase:lemma ?singular . \x7d"
      ["lexeme", "lexemeID", "plural"] ["plural"]
      (by decide) (by decide) (by decide)⟩

/-- Claim C5: each special labeling-service variable occurring in the
(post-drop) selection list is inserted into the naturally-derived pattern
list at the positional index it holds in the selection list, before the order
comparison runs (stated for the scenario where the other two special
variables are absent, as in the claim). -/
theorem validate_forms_special_insertion (qt : String) (sv0 : List String)
    (var : String)
    (hvar : var ∈ (["case", "gender", "auxiliaryVerb"] : List String))
    (hsv : select_vars_of qt = some sv0)
    (hmem : var ∈ sv0.drop 2)
    (hothers : ∀ w ∈ (["case", "gender", "auxiliaryVerb"] : List String),
      w ≠ var → w ∉ sv0.drop 2)
    (hnat : var ∉ natural_where_vars qt) :
    where_vars_of qt (sv0.drop 2) =
      pyInsert (pyIndex var (sv0.drop 2)) var (natural_where_vars qt) ∧
    validate_forms qt =
      validate_tail (sv0.drop 2)
        (pyInsert (pyIndex var (sv0.drop 2)) var (natural_where_vars qt)) := by
  have h1 : where_vars_of qt (sv0.drop 2) =
      pyInsert (pyIndex var (sv0.drop 2)) var (natural_where_vars qt) := by
    simp only [where_vars_of, insert_special_vars]
    simp only [List.mem_cons] at hvar
    rcases hvar with h | h | h | h
    all_goals first
      | exact absurd h (by simp)
      | subst h
    · have hg : "gender" ∉ sv0.drop 2 :=
        hothers "gender" (by simp) (by decide)
      have ha : "auxiliaryVerb" ∉ sv0.drop 2 :=
        hothers "auxiliaryVerb" (by simp) (by decide)
      simp [hmem, hg, ha]
    · have hc : "case" ∉ sv0.drop 2 :=
        hothers "case" (by simp) (by decide)
      have ha : "auxiliaryVerb" ∉ sv0.drop 2 :=
        hothers "auxiliaryVerb" (by simp) (by decide)
      simp [hmem, hc, ha]
    · have hc : "case" ∉ sv0.drop 2 :=
        hothers "case" (by simp) (by decide)
      have hg : "gender" ∉ sv0.drop 2 :=
        hothers "gender" (by simp) (by decide)
      simp [hmem, hc, hg]
  refine ⟨h1, ?_⟩
  simp only [validate_forms, hsv]
  rw [← h1]

/-- Claim C5 witness: `gender` at index 2 of the post-drop selection list is
inserted at index 2 of the pattern list before the order comparison (and the
comparison then succeeds). -/
theorem validate_forms_special_insertion_witness :
    (("gender" : String) ∈ (["case", "gender", "auxiliaryVerb"] : List String) ∧
      select_vars_of "SELECT ?lexeme ?lexemeID ?singular ?plural ?gender WHERE \x7b ?lexeme wikibase:lemma ?singular . x ontolex:representation ?plural ; \x7d" =
        some ["lexeme", "lexemeID", "singular", "plural", "gender"] ∧
      ("gender" : String) ∈
        (["lexeme", "lexemeID", "singular", "plural", "gender"] : List String).drop 2 ∧
      (∀ w ∈ (["case", "gender", "auxiliaryVerb"] : List String), w ≠ "gender" →
        w ∉ (["lexeme", "lexemeID", "singular", "plural", "gender"] : List String).drop 2) ∧
      ("gender" : String) ∉ natural_where_vars
        "SELECT ?lexeme ?lexemeID ?singular ?plural ?gender WHERE \x7b ?lexeme wikibase:lemma ?singular . x ontolex:representation ?plural ; \x7d" ∧
      pyIndex "gender"
        ((["lexeme", "lexemeID", "singular", "plural", "gender"] : List String).drop 2) = 2) ∧
    where_vars_of
        "SELECT ?lexeme ?lexemeID ?singular ?plural ?gender WHERE \x7b ?lexeme wikibase:lemma ?singular . x ontolex:representation ?plural ; \x7d"
        ((["lexeme", "lexemeID", "singular", "plural", "gender"] : List String).drop 2) =
      pyInsert (pyIndex "gender"
          ((["lexeme", "lexemeID", "singular", "plural", "gender"] : List String).drop 2))
        "gender"
        (natural_where_vars
          "SELECT ?lexeme ?lexemeID ?singular ?plural ?gender WHERE \x7b ?lexeme wikibase:lemma ?singular . x ontolex:representation ?plural ; \x7d") :=
  ⟨⟨by decide, by decide, by decide, by decide, by decide, by decide⟩,
    (validate_forms_special_insertion
      "SELECT ?lexeme ?lexemeID ?singular ?plural ?gender WHERE \x7b ?lexeme wikibase:lemma ?singular . x ontolex:representation ?plural ; \x7d"
      ["lexeme", "lexemeID", "singular", "plural", "gender"] "gender"
      (by decide) (by decide) (by decide) (by decide) (by decide)).1⟩

theorem lookupDict_dictInsert_self (k : Option String) (r : FormCheckResult)
    (d : List (Option String × FormCheckResult)) :
    lookupDict (dictInsert k r d) k = some r := by
  induction d with
  | nil => simp [dictInsert, lookupDict, List.find?]
  | cons p rest ih =>
    by_cases hp : p.1 = k
    · simp [dictInsert, if_pos hp, lookupDict, List.find?]
    · simp only [dictInsert, if_neg hp, lookupDict] at ih ⊢
      rw [List.find?_cons_of_neg _ (by simp [hp])]
      exact ih

theorem lookupDict_dictInsert_other (k k' : Option String) (r : FormCheckResult)
    (d : List (Option String × FormCheckResult)) (hne : k' ≠ k) :
    lookupDict (dictInsert k r d) k' = lookupDict d k' := by
  induction d with
  | nil =>
    simp only [dictInsert, lookupDict]
    rw [List.find?_cons_of_neg _ (by simp [Ne.symm hne])]
  | cons p rest ih =>
    by_cases hp : p.1 = k
    · simp only [dictInsert, if_pos hp, lookupDict]
      rw [List.find?_cons_of_neg _ (by simp [Ne.symm hne]),
        List.find?_cons_of_neg _ (by simp [hp, Ne.symm hne])]
    · simp only [dictInsert, if_neg hp, lookupDict] at ih ⊢
      by_cases hq : p.1 = k'
      · rw [List.find?_cons_of_pos _ (by simp [hq]),
          List.find?_cons_of_pos _ (by simp [hq])]
      · rw [List.find?_cons_of_neg _ (by simp [hq]),
          List.find?_cons_of_neg _ (by simp [hq])]
        exact ih

theorem build_dict_lookup (v : Vocab) (forms : List (List Char))
    (d0 d : List (Option String × FormCheckResult)) (k : Option String)
    (h : build_dict v forms d0 = .val d) :
    lookupDict d k =
      match (forms.filter eligibleForm).reverse.find?
          (fun ft => decide (extract_form_rep_label ft = k)) with
      | some ft => (blockResults v ft).toOption
      | none => lookupDict d0 k := by
  induction forms generalizing d0 with
  | nil =>
    rw [build_dict] at h
    cases h
    rfl
  | cons ft rest ih =>
    rw [build_dict] at h
    by_cases he : eligibleForm ft
    · rw [if_pos he] at h
      revert h
      cases hb : blockResults v ft with
      | exn => intro h; exact absurd h (by simp)
      | val r =>
        intro h
        rw [ih _ h, List.filter_cons_of_pos he, List.reverse_cons,
          List.find?_append]
        cases hf : (rest.filter eligibleForm).reverse.find?
            (fun ft => decide (extract_form_rep_label ft = k)) with
        | some ft2 => simp
        | none =>
          simp only [Option.none_or]
          by_cases hk : extract_form_rep_label ft = k
          · rw [List.find?_cons_of_pos _ (by simp [hk])]
            rw [hk, lookupDict_dictInsert_self]
            show some r = (blockResults v ft).toOption
            rw [hb]
            rfl
          · rw [List.find?_cons_of_neg _ (by simp [hk])]
            simp only [List.find?_nil]
            exact lookupDict_dictInsert_other _ _ _ _ (fun hcon => hk hcon.symm)
    · rw [if_neg he] at h
      rw [ih _ h, List.filter_cons_of_neg he]

/-- Claim C10: the orchestrator's per-file collection is keyed by the
extracted representation label, so when several eligible form blocks share a
label, the retained check results for that label are exactly those of the
last such block (earlier blocks' results are overwritten). -/
theorem check_query_forms_dict_last_wins (v : Vocab) (forms : List (List Char))
    (d : List (Option String × FormCheckResult)) (k : Option String)
    (h : build_dict v forms [] = PyResult.val d) :
    lookupDict d k =
      ((forms.filter eligibleForm).reverse.find?
        (fun ft => decide (extract_form_rep_label ft = k))).bind
        (fun ft => (blockResults v ft).toOption) := by
  rw [build_dict_lookup v forms [] d k h]
  cases hf : (forms.filter eligibleForm).reverse.find?
      (fun ft => decide (extract_form_rep_label ft = k)) with
  | some ft => rfl
  | none => rfl

/-- Claim C10 witness: two form blocks with the same representation label
`x`; the retained results are those of the second block (its feature code is
`Q2`, resolved label `plural`). -/
theorem check_query_forms_dict_last_wins_witness :
    (build_dict [[⟨"Q1", "Singular"⟩, ⟨"Q2", "Plural"⟩]]
        [("?lexeme ontolex:lexicalForm ?xForm .\n?xForm ontolex:representation ?x ;\nwikibase:grammaticalFeature wd:Q1 .").data,
          ("?lexeme ontolex:lexicalForm ?xForm .\n?xForm ontolex:representation ?x ;\nwikibase:grammaticalFeature wd:Q2 .").data] [] =
      PyResult.val [(some "x",
        { form_rep_match := true
          correct_formatting := true
          qids := some ["Q2"]
          correct_form_rep_label := "plural" })]) ∧
    (lookupDict [(some "x",
        { form_rep_match := true
          correct_formatting := true
          qids := some ["Q2"]
          correct_form_rep_label := "plural" })] (some "x") =
      (([("?lexeme ontolex:lexicalForm ?xForm .\n?xForm ontolex:representation ?x ;\nwikibase:grammaticalFeature wd:Q1 .").data,
          ("?lexeme ontolex:lexicalForm ?xForm .\n?xForm ontolex:representation ?x ;\nwikibase:grammaticalFeature wd:Q2 .").data].filter
            eligibleForm).reverse.find?
        (fun ft => decide (extract_form_rep_label ft = some "x"))).bind
        (fun ft => (blockResults [[⟨"Q1", "Singular"⟩, ⟨"Q2", "Plural"⟩]] ft).toOption)) :=
  ⟨by decide,
    check_query_forms_dict_last_wins [[⟨"Q1", "Singular"⟩, ⟨"Q2", "Plural"⟩]]
      [("?lexeme ontolex:lexicalForm ?xForm .\n?xForm ontolex:representation ?x ;\nwikibase:grammaticalFeature wd:Q1 .").data,
        ("?lexeme ontolex:lexicalForm ?xForm .\n?xForm ontolex:representation ?x ;\nwikibase:grammaticalFeature wd:Q2 .").data]
      [(some "x",
        { form_rep_match := true
          correct_formatting := true
          qids := some ["Q2"]
          correct_form_rep_label := "plural" })] (some "x") (by decide)⟩

end CheckQueryForms

